import Mathlib

/-! # Plt-Video: server-side rendering, session and proxy handlers

A shallow embedding of `src/server/server.js` (state hydration in `renderApp`, the HTML shell
built by `setResponse`, the sign-in handler, the user-movie delete proxy) together with the
avatar helper exercised by `src/frontend/__test__/utils/gravatar.test.js`.

JavaScript values are embedded as the inductive type `JVal`; an operation that can throw returns
`Except JsError _`; a request handler is embedded as the list of calls it makes on `res` and
`next`, in order.
-/

set_option autoImplicit false
set_option maxRecDepth 100000

namespace PltVideo

/-! ## JavaScript values -/

/-- JavaScript values reaching the handlers: `undefined` (a missing property or cookie) and the
values a parsed JSON body can hold. Numbers are carried as integers: the server never computes
with them, it only tests them for truthiness and strict equality. -/
inductive JVal where
  | undefined
  | null
  | bool (b : Bool)
  | num (n : Int)
  | str (s : String)
  | arr (xs : List JVal)
  | obj (fields : List (String × JVal))
  deriving Repr, Inhabited

/-- Errors travelling through `throw`, promise rejection and `next(err)`. -/
inductive JsError where
  /-- a `TypeError` raised by the language (property of `null`, call of a non-function) -/
  | typeError
  /-- the value of `boom.unauthorized()` -/
  | unauthorized
  /-- the value of `boom.badImplementation()` -/
  | badImplementation
  /-- the rejection of an axios request whose status fails `validateStatus` -/
  | requestFailed (status : Nat)
  /-- any other error (transport failure, error reported by a library) -/
  | other (msg : String)
  deriving Repr, DecidableEq, Inhabited

/-- The part of an axios response the server reads: `{ data, status }`. -/
structure AxiosResponse where
  data : JVal
  status : Nat
  deriving Repr, Inhabited

namespace JVal

/-- The operator `===` on values taken from parsed bodies and cookies: primitives are compared by
value; two objects or arrays are distinct references, hence never equal. -/
def strictEq : JVal → JVal → Bool
  | undefined, undefined => true
  | null, null => true
  | bool a, bool b => a == b
  | num a, num b => a == b
  | str a, str b => a == b
  | _, _ => false

/-- Conversion to boolean, as done by `if`, `!`, `&&`, `? :` and `Array.prototype.filter`. -/
def truthy : JVal → Bool
  | undefined => false
  | null => false
  | bool b => b
  | num n => n != 0
  | str s => s != ""
  | arr _ => true
  | obj _ => true

/-- Reading key `k` from the fields of an object; a missing key reads as `undefined`. -/
def lookup (k : String) : List (String × JVal) → JVal
  | [] => undefined
  | (k', v) :: rest => if k' = k then v else lookup k rest

/-- Property access `v.k` for the keys the server reads (`data`, `_id`, `movieId`,
`contentRating`, `token`): it throws on `undefined` and `null`, reads the field of an object, and
is `undefined` on every other value, none of which has such a property. -/
def getProp (v : JVal) (k : String) : Except JsError JVal :=
  match v with
  | undefined => .error .typeError
  | null => .error .typeError
  | obj fields => .ok (lookup k fields)
  | _ => .ok undefined

/-- Own enumerable properties, as copied by object spread `{...v}` and by a rest pattern: the
fields of an object, the indexed elements of an array, the indexed characters of a string, and
nothing for the other values. -/
def ownProps : JVal → List (String × JVal)
  | obj fields => fields
  | arr xs => xs.enum.map (fun p => (toString p.1, p.2))
  | str s => s.toList.enum.map (fun p => (toString p.1, str (String.singleton p.2)))
  | _ => []

/-- Writing key `k` in an object literal after a spread: an existing key keeps its place and
takes the new value, a new key is added at the end. -/
def setProp (k : String) (v : JVal) : List (String × JVal) → List (String × JVal)
  | [] => [(k, v)]
  | (k', v') :: rest => if k' = k then (k, v) :: rest else (k', v') :: setProp k v rest

/-- The call `v.forEach(callback)` with the state the callback mutates threaded through: only an
array has the method, on any other value the call throws. -/
def forEach {σ : Type} (v : JVal) (callback : σ → JVal → Except JsError σ) (init : σ) :
    Except JsError σ :=
  match v with
  | arr xs => xs.foldlM callback init
  | _ => .error .typeError

/-- Elements of a list kept by a callback that may throw, visited from left to right. -/
def filterList (callback : JVal → Except JsError Bool) : List JVal → Except JsError (List JVal)
  | [] => .ok []
  | x :: xs => do
    let keep ← callback x
    let rest ← filterList callback xs
    pure (if keep then x :: rest else rest)

/-- The call `v.filter(callback)`: only an array has the method. -/
def filter (v : JVal) (callback : JVal → Except JsError Bool) : Except JsError (List JVal) :=
  match v with
  | arr xs => filterList callback xs
  | _ => .error .typeError

end JVal

open JVal

/-! ## State hydration (`renderApp`, lines 79-127) -/

/-- Body of the inner loop of the merge (lines 103-106): on `movie._id === userMovie.movieId`
push `{ ...movie, userMovieId: userMovie._id }` onto `myList`. -/
def mergeBody (userMovie : JVal) (myList : List JVal) (movie : JVal) :
    Except JsError (List JVal) := do
  let movieId ← getProp movie "_id"
  let wanted ← getProp userMovie "movieId"
  if strictEq movieId wanted then
    let userMovieId ← getProp userMovie "_id"
    pure (myList ++ [obj (setProp "userMovieId" userMovieId (ownProps movie))])
  else
    pure myList

/-- The merge step (lines 100-108): `myList` starts empty and the two nested `forEach` loops,
the outer one over `userMovies`, push onto it. -/
def mergeStep (movieList userMovies : JVal) : Except JsError (List JVal) :=
  forEach userMovies
    (fun myList userMovie => forEach movieList (mergeBody userMovie) myList) []

/-- The filter callback of lines 116-117: `movie.contentRating === rating && movie._id`. -/
def ratedWithId (rating : String) (movie : JVal) : Except JsError Bool := do
  let contentRating ← getProp movie "contentRating"
  if strictEq contentRating (str rating) then
    let id ← getProp movie "_id"
    pure (truthy id)
  else
    pure false

/-- The fallback state of the `catch` block (lines 120-126). -/
def emptyState : JVal :=
  obj [("user", obj []), ("playing", obj []), ("myList", arr []), ("trends", arr []),
    ("originals", arr [])]

/-- The `try` block of `renderApp` (lines 84-118). `movies` and `userList` are the outcomes of
the two awaited axios requests; the second request is only awaited when the first one and the
read of its `data.data` went through. -/
def hydrate (cookies : List (String × JVal)) (movies userList : Except JsError AxiosResponse) :
    Except JsError JVal := do
  let email := lookup "email" cookies
  let name := lookup "name" cookies
  let id := lookup "id" cookies
  let response ← movies
  let movieList ← getProp response.data "data"
  let response ← userList
  let userMovies ← getProp response.data "data"
  let myList ← mergeStep movieList userMovies
  let trends ← JVal.filter movieList (ratedWithId "PG")
  let originals ← JVal.filter movieList (ratedWithId "G")
  pure (obj [("user", obj [("id", id), ("email", email), ("name", name)]), ("playing", obj []),
    ("myList", arr myList), ("trends", arr trends), ("originals", arr originals)])

/-- The value of `initialState` after the `try`/`catch` of `renderApp` (lines 83-127). -/
def initialState (cookies : List (String × JVal)) (movies userList : Except JsError AxiosResponse) :
    JVal :=
  match hydrate cookies movies userList with
  | .ok state => state
  | .error _ => emptyState

/-- A list response as the hydrator reads it: `{ data: rows }`. -/
def listResponse (rows : JVal) : AxiosResponse :=
  { data := obj [("data", rows)], status := 200 }

/-- The shape the hydrator expects of `data.data`: an array whose elements are all objects. -/
def isRowList : JVal → Bool
  | arr rows => rows.all (fun row => match row with
    | obj _ => true
    | _ => false)
  | _ => false

/-- Whether `data.data` of a response is an array at all. -/
def hasArrayPayload (response : AxiosResponse) : Bool :=
  match response.data with
  | obj fields =>
    match lookup "data" fields with
    | arr _ => true
    | _ => false
  | _ => false

/-! ## The merge and the filters in the words of the specification -/

/-- Whether a catalog movie is the one a user-movie row points at:
`movie._id === userMovie.movieId`. -/
def idsMatch (userMovie movie : List (String × JVal)) : Bool :=
  strictEq (lookup "_id" movie) (lookup "movieId" userMovie)

/-- The entry for a matching pair: the movie's fields with `userMovieId` set to the row's
`_id`. -/
def myListEntry (userMovie movie : List (String × JVal)) : JVal :=
  obj (setProp "userMovieId" (lookup "_id" userMovie) movie)

/-- The merge as the specification words it: walk the user-movie rows in order and, for each one,
emit one entry per catalog movie with a matching id. -/
def mergeSpec (movies userMovies : List (List (String × JVal))) : List JVal :=
  userMovies.flatMap
    (fun userMovie => (movies.filter (idsMatch userMovie)).map (myListEntry userMovie))

/-- The guard of the two catalog views on the fields of a movie: the rating is exactly `rating`
and `_id` is truthy. -/
def ratedAndIdentified (rating : String) (movie : List (String × JVal)) : Bool :=
  strictEq (lookup "contentRating" movie) (str rating) && truthy (lookup "_id" movie)

/-! ## Request handlers as traces of calls -/

/-- A call a handler makes on the response object or on `next`. -/
inductive Effect where
  /-- the call `next(err)` -/
  | next (err : JsError)
  /-- the call `res.cookie(name, value, { httpOnly, secure })` -/
  | cookie (name : String) (value : JVal) (httpOnly secure : Bool)
  /-- the call `res.status(status).json(body)` -/
  | json (status : Nat) (body : JVal)
  deriving Repr, Inhabited

/-- The test `ENV === 'development'`; `ENV` is `none` when the variable is not set. -/
def isDevelopment (ENV : Option String) : Bool :=
  ENV == some "development"

/-- The callback handed to `req.login` (lines 151-164). `err` is what the library passes to it.
The callback is an `async` function: when the rest pattern `{ token, ...user } = data` throws
(on `undefined` or `null`), the promise it returns rejects, nobody awaits it and no further call
is made. -/
def loginCallback (ENV : Option String) (data : JVal) (err : Option JsError) : List Effect :=
  (match err with
    | some e => [Effect.next e]
    | none => []) ++
  (match getProp data "token" with
    | .error _ => []
    | .ok token =>
      [Effect.cookie "token" token (!isDevelopment ENV) (!isDevelopment ENV),
       Effect.json 200 (obj ((ownProps data).filter (fun field => field.1 != "token")))])

/-- The callback of `passport.authenticate` in the sign-in handler (lines 145-168), called with
the strategy's `(error, data)`. `loginErr` is the error `req.login` hands to its callback
(passport hands none when called with `session: false`). -/
def signIn (ENV : Option String) (error : Option JsError) (data : JVal)
    (loginErr : Option JsError) : List Effect :=
  (if error.isSome || !truthy data then [Effect.next JsError.unauthorized] else []) ++
    loginCallback ENV data loginErr

/-- The default `validateStatus` of axios, used by every request of the server since none passes
the option: a status in the range 200-299 is accepted. -/
def defaultValidateStatus (status : Nat) : Bool :=
  decide (200 ≤ status) && decide (status < 300)

/-- How axios settles a request. `final` is the response the exchange ends on: axios follows the
redirects of the remote service by itself (no request of the server sets `maxRedirects`), so a
3xx reply carrying a `Location` is never `final`. The promise resolves with `final` when its
status is zero or passes `validateStatus`, and rejects otherwise. -/
def axiosSettle (validateStatus : Nat → Bool) (final : AxiosResponse) :
    Except JsError AxiosResponse :=
  if final.status == 0 || validateStatus final.status then .ok final
  else .error (JsError.requestFailed final.status)

/-- The handler of `DELETE /user-movies/:userMovieId` (lines 217-236) on the outcome of the
awaited axios request. -/
def deleteUserMovie (outcome : Except JsError AxiosResponse) : List Effect :=
  match outcome with
  | .error e => [Effect.next e]
  | .ok response =>
    if response.status != 200 then [Effect.next JsError.badImplementation]
    else [Effect.json 200 response.data]

/-! ## The HTML shell (`setResponse`, lines 51-77) -/

/-- The text `${manifest[key]}`: the path stored under `key`, and the text `undefined` for a key
the manifest lacks. -/
def manifestEntry (manifest : List (String × String)) (key : String) : String :=
  match manifest.lookup key with
  | some path => path
  | none => "undefined"

/-- The call `.replace(/</g, '\\u003c')` on the characters of a text. -/
def replaceLt : List Char → List Char
  | [] => []
  | c :: rest => if c = '<' then "\\u003c".toList ++ replaceLt rest else c :: replaceLt rest

/-- The payload embedded after `window.__PRELOADED_STATE__ = `, from the JSON text of the
state. -/
def statePayload (json : String) : String :=
  String.mk (replaceLt json.toList)

/-- Template text before the stylesheet reference. -/
def shellHead : String :=
  "\n      <!DOCTYPE html>\n      <html lang=\"es\">\n        <head>\n" ++
  "          <meta charset=\"UTF-8\">\n" ++
  "          <meta name=\"viewport\" content=\"width=device-width, initial-scale=1.0\">\n" ++
  "          <meta http-equiv=\"X-UA-Compatible\" content=\"ie=edge\">\n" ++
  "          <meta charset=\"utf-8\" />\n" ++
  "          <link rel=\"stylesheet\" href=\""

/-- Template text between the stylesheet reference and the markup. -/
def shellBody : String :=
  "\" type=\"text/css\"/>\n          <title>Platfix</title>\n        </head>\n" ++
  "        <body>\n          <div id=\"app\">"

/-- Template text between the markup and the state payload. -/
def shellState : String :=
  "</div>\n          <script id=\"preloadedState\">\n" ++
  "            window.__PRELOADED_STATE__ = "

/-- Template text between the state payload and the main bundle. -/
def shellMain : String :=
  "\n          </script>\n          <script src=\""

/-- Template text between the main bundle and the vendor bundle. -/
def shellVendor : String :=
  "\" type=\"text/javascript\"></script>\n          <script src=\""

/-- Template text after the vendor bundle. -/
def shellTail : String :=
  "\" type=\"text/javascript\"></script>\n        </body>\n      </html>"

/-- The template literal of lines 56-75 with its five interpolated texts. -/
def shellTemplate (mainStyles html payload mainBuild vendorBuild : String) : String :=
  shellHead ++ mainStyles ++ shellBody ++ html ++ shellState ++ payload ++ shellMain ++
    mainBuild ++ shellVendor ++ vendorBuild ++ shellTail

/-- The function `setResponse`. `stringify` stands for the built-in `JSON.stringify`, which
yields a text, or `undefined` (here `none`) for a value with no JSON form, on which `.replace`
throws. `manifest` is `none` for a falsy manifest (development, where none is attached to the
request). -/
def setResponse (stringify : JVal → Option String) (html : String) (preloadedState : JVal)
    (manifest : Option (List (String × String))) : Except JsError String :=
  let mainStyles :=
    match manifest with
    | some m => manifestEntry m "main.css"
    | none => "/assets/app.css"
  let mainBuild :=
    match manifest with
    | some m => manifestEntry m "main.js"
    | none => "/assets/app.js"
  let vendorBuild :=
    match manifest with
    | some m => manifestEntry m "vendors.js"
    | none => "assets/vendor.js"
  match stringify preloadedState with
  | none => .error JsError.typeError
  | some json => .ok (shellTemplate mainStyles html (statePayload json) mainBuild vendorBuild)

/-- A text occurs in a document as a contiguous run of characters. -/
def occursIn (part document : String) : Prop :=
  part.toList <:+: document.toList

/-! ## The avatar helper (`utils/gravatar`) -/

/-- Per-step left-rotation amounts of MD5 (RFC 1321). -/
def md5Shifts : List Nat :=
  [7, 12, 17, 22, 7, 12, 17, 22, 7, 12, 17, 22, 7, 12, 17, 22,
   5, 9, 14, 20, 5, 9, 14, 20, 5, 9, 14, 20, 5, 9, 14, 20,
   4, 11, 16, 23, 4, 11, 16, 23, 4, 11, 16, 23, 4, 11, 16, 23,
   6, 10, 15, 21, 6, 10, 15, 21, 6, 10, 15, 21, 6, 10, 15, 21]

/-- Per-step additive constants of MD5: the integer part of `2^32 * |sin (i + 1)|`. -/
def md5Consts : List Nat :=
  [0xd76aa478, 0xe8c7b756, 0x242070db, 0xc1bdceee, 0xf57c0faf, 0x4787c62a, 0xa8304613, 0xfd469501,
   0x698098d8, 0x8b44f7af, 0xffff5bb1, 0x895cd7be, 0x6b901122, 0xfd987193, 0xa679438e, 0x49b40821,
   0xf61e2562, 0xc040b340, 0x265e5a51, 0xe9b6c7aa, 0xd62f105d, 0x02441453, 0xd8a1e681, 0xe7d3fbc8,
   0x21e1cde6, 0xc33707d6, 0xf4d50d87, 0x455a14ed, 0xa9e3e905, 0xfcefa3f8, 0x676f02d9, 0x8d2a4c8a,
   0xfffa3942, 0x8771f681, 0x6d9d6122, 0xfde5380c, 0xa4beea44, 0x4bdecfa9, 0xf6bb4b60, 0xbebfbc70,
   0x289b7ec6, 0xeaa127fa, 0xd4ef3085, 0x04881d05, 0xd9d4d039, 0xe6db99e5, 0x1fa27cf8, 0xc4ac5665,
   0xf4292244, 0x432aff97, 0xab9423a7, 0xfc93a039, 0x655b59c3, 0x8f0ccc92, 0xffeff47d, 0x85845dd1,
   0x6fa87e4f, 0xfe2ce6e0, 0xa3014314, 0x4e0811a1, 0xf7537e82, 0xbd3af235, 0x2ad7d2bb, 0xeb86d391]

/-- Left rotation of a 32-bit word. -/
def rotl32 (x c : Nat) : Nat :=
  ((x <<< c) ||| (x >>> (32 - c))) % 2 ^ 32

/-- Bitwise complement of a 32-bit word. -/
def not32 (x : Nat) : Nat := x ^^^ 0xffffffff

/-- The `n` low bytes of `x`, least significant first. -/
def leBytes : Nat → Nat → List Nat
  | 0, _ => []
  | n + 1, x => x % 256 :: leBytes n (x / 256)

/-- A little-endian 32-bit word from (up to) four bytes. -/
def leWord (bytes : List Nat) : Nat :=
  bytes.foldr (fun b acc => b + 256 * acc) 0

/-- Cuts a list into consecutive chunks of `size` elements; `fuel` bounds the number of chunks. -/
def chunks {α : Type} (size : Nat) : Nat → List α → List (List α)
  | 0, _ => []
  | fuel + 1, xs => if xs.isEmpty then [] else xs.take size :: chunks size fuel (xs.drop size)

/-- MD5 padding: a `0x80` byte, zero bytes up to 56 modulo 64, then the bit length on 8 bytes. -/
def md5Pad (msg : List Nat) : List Nat :=
  msg ++ [0x80] ++ List.replicate ((119 - msg.length % 64) % 64) 0 ++ leBytes 8 (8 * msg.length)

/-- One of the 64 steps of the MD5 compression function on the state `(a, b, c, d)`. -/
def md5Step (words : List Nat) (st : Nat × Nat × Nat × Nat) (i : Nat) : Nat × Nat × Nat × Nat :=
  let (a, b, c, d) := st
  let f :=
    if i < 16 then (b &&& c) ||| (not32 b &&& d)
    else if i < 32 then (d &&& b) ||| (not32 d &&& c)
    else if i < 48 then b ^^^ c ^^^ d
    else c ^^^ (b ||| not32 d)
  let g :=
    if i < 16 then i
    else if i < 32 then (5 * i + 1) % 16
    else if i < 48 then (3 * i + 5) % 16
    else (7 * i) % 16
  let sum := (a + f + md5Consts.getD i 0 + words.getD g 0) % 2 ^ 32
  (d, (b + rotl32 sum (md5Shifts.getD i 0)) % 2 ^ 32, b, c)

/-- The MD5 compression function: 64 steps on one 64-byte block, then the feed-forward sum. -/
def md5Block (st : Nat × Nat × Nat × Nat) (block : List Nat) : Nat × Nat × Nat × Nat :=
  let words := (chunks 4 16 block).map leWord
  let (a, b, c, d) := (List.range 64).foldl (md5Step words) st
  ((st.1 + a) % 2 ^ 32, (st.2.1 + b) % 2 ^ 32, (st.2.2.1 + c) % 2 ^ 32, (st.2.2.2 + d) % 2 ^ 32)

/-- The MD5 digest (16 bytes) of a list of bytes. -/
def md5 (msg : List Nat) : List Nat :=
  let padded := md5Pad msg
  let (a, b, c, d) :=
    (chunks 64 (padded.length / 64) padded).foldl md5Block
      (0x67452301, 0xefcdab89, 0x98badcfe, 0x10325476)
  leBytes 4 a ++ leBytes 4 b ++ leBytes 4 c ++ leBytes 4 d

/-- One lowercase hexadecimal digit. -/
def hexDigit (n : Nat) : Char :=
  "0123456789abcdef".toList.getD n '0'

/-- Lowercase hexadecimal rendering of a list of bytes, two digits per byte. -/
def hex (bytes : List Nat) : String :=
  String.mk (bytes.flatMap (fun b => [hexDigit (b / 16), hexDigit (b % 16)]))

/-- UTF-8 encoding of one code point. -/
def utf8Char (c : Nat) : List Nat :=
  if c < 0x80 then [c]
  else if c < 0x800 then [0xc0 + c / 0x40, 0x80 + c % 0x40]
  else if c < 0x10000 then [0xe0 + c / 0x1000, 0x80 + c / 0x40 % 0x40, 0x80 + c % 0x40]
  else [0xf0 + c / 0x40000, 0x80 + c / 0x1000 % 0x40, 0x80 + c / 0x40 % 0x40, 0x80 + c % 0x40]

/-- UTF-8 encoding of a text. -/
def utf8 (cs : List Char) : List Nat :=
  cs.flatMap (fun c => utf8Char c.toNat)


/-- White space and line terminators, the characters `String.prototype.trim` strips. -/
def isTrimSpace (c : Char) : Bool :=
  [0x09, 0x0a, 0x0b, 0x0c, 0x0d, 0x20, 0xa0, 0x1680, 0x2000, 0x2001, 0x2002, 0x2003, 0x2004,
   0x2005, 0x2006, 0x2007, 0x2008, 0x2009, 0x200a, 0x2028, 0x2029, 0x202f, 0x205f, 0x3000,
   0xfeff].contains c.toNat

/-- A text without its leading and trailing white space. -/
def trim (cs : List Char) : List Char :=
  ((cs.dropWhile isTrimSpace).reverse.dropWhile isTrimSpace).reverse

/-- The trimmed, lowercased form of an email. `toLowerCase` stands for the built-in
`String.prototype.toLowerCase`, which folds every cased letter. -/
def normalizeEmail (toLowerCase : List Char → List Char) (email : String) : List Char :=
  toLowerCase (trim email.toList)

/-- Modelled from the spec: the function `gravatar` of `src/frontend/utils/gravatar`, of which
only the test is at hand. The URL is the fixed prefix followed by the lowercase hexadecimal MD5
hash (RFC 1321, over the UTF-8 bytes) of the trimmed, lowercased email. -/
def gravatar (toLowerCase : List Char → List Char) (email : String) : String :=
  "https://gravatar.com/avatar/" ++ hex (md5 (utf8 (normalizeEmail toLowerCase email)))

/-! # Theorems -/

/-! ## Values -/

theorem strictEq_eq {a b : JVal} (h : strictEq a b = true) : a = b := by
  cases a <;> cases b <;> simp_all [strictEq]

theorem strictEq_str (a b : String) : strictEq (str a) (str b) = true ↔ a = b := by
  simp [strictEq]

theorem strictEq_str_right (v : JVal) (s : String) : strictEq v (str s) = true ↔ v = str s := by
  cases v <;> simp [strictEq]

theorem strictEq_trans_left {a b c : JVal} (hac : strictEq a c = true)
    (hbc : strictEq b c = true) : strictEq a b = true := by
  have h1 := strictEq_eq hac
  have h2 := strictEq_eq hbc
  subst h1
  subst h2
  exact hac

theorem lookup_setProp_same (k : String) (v : JVal) (fields : List (String × JVal)) :
    lookup k (setProp k v fields) = v := by
  induction fields with
  | nil => simp [setProp, lookup]
  | cons f rest ih =>
    obtain ⟨k', v'⟩ := f
    by_cases h : k' = k
    · simp [setProp, lookup, h]
    · simp [setProp, lookup, h, ih]

theorem lookup_setProp_other (k k' : String) (v : JVal) (fields : List (String × JVal))
    (h : k' ≠ k) : lookup k' (setProp k v fields) = lookup k' fields := by
  induction fields with
  | nil => simp [setProp, lookup, Ne.symm h]
  | cons f rest ih =>
    obtain ⟨k₀, v₀⟩ := f
    by_cases h0 : k₀ = k
    · subst h0
      simp [setProp, lookup, Ne.symm h]
    · by_cases h1 : k₀ = k'
      · subst h1
        simp [setProp, lookup, h0]
      · simp [setProp, lookup, h0, h1, ih]

theorem lookup_filter_removed (k : String) (fields : List (String × JVal)) :
    lookup k (fields.filter (fun field => field.1 != k)) = undefined := by
  induction fields with
  | nil => simp [lookup]
  | cons f rest ih =>
    obtain ⟨k', v'⟩ := f
    by_cases h : k' = k
    · simp [List.filter_cons, h, ih]
    · simp [List.filter_cons, h, lookup, ih]

theorem lookup_filter_other (k k' : String) (fields : List (String × JVal)) (h : k' ≠ k) :
    lookup k' (fields.filter (fun field => field.1 != k)) = lookup k' fields := by
  induction fields with
  | nil => simp [lookup]
  | cons f rest ih =>
    obtain ⟨k₀, v₀⟩ := f
    by_cases h0 : k₀ = k
    · subst h0
      simp [List.filter_cons, lookup, Ne.symm h, ih]
    · by_cases h1 : k₀ = k'
      · subst h1
        simp [List.filter_cons, h0, lookup]
      · simp [List.filter_cons, h0, lookup, h1, ih]

theorem forEach_arr {σ : Type} (xs : List JVal) (callback : σ → JVal → Except JsError σ)
    (init : σ) : forEach (arr xs) callback init = xs.foldlM callback init := rfl

/-! ## The merge loops -/

theorem mergeBody_obj (userMovie movie : List (String × JVal)) (myList : List JVal) :
    mergeBody (obj userMovie) myList (obj movie) =
      .ok (if idsMatch userMovie movie then myList ++ [myListEntry userMovie movie]
        else myList) := by
  unfold mergeBody idsMatch myListEntry
  simp only [getProp, ownProps, bind, Except.bind, pure, Except.pure]
  split <;> rfl

theorem inner_loop (userMovie : List (String × JVal)) (movies : List (List (String × JVal)))
    (myList : List JVal) :
    forEach (arr (movies.map obj)) (mergeBody (obj userMovie)) myList =
      .ok (myList ++ (movies.filter (idsMatch userMovie)).map (myListEntry userMovie)) := by
  rw [forEach_arr]
  induction movies generalizing myList with
  | nil => simp [pure, Except.pure]
  | cons m rest ih =>
    simp only [List.map_cons, List.foldlM_cons, mergeBody_obj, bind, Except.bind]
    rw [ih]
    by_cases h : idsMatch userMovie m = true
    · simp [h]
    · simp [h]

theorem outer_loop (movies userMovies : List (List (String × JVal))) (myList : List JVal) :
    forEach (arr (userMovies.map obj))
      (fun myList userMovie => forEach (arr (movies.map obj)) (mergeBody userMovie) myList)
      myList = .ok (myList ++ mergeSpec movies userMovies) := by
  rw [forEach_arr]
  induction userMovies generalizing myList with
  | nil => simp [pure, Except.pure, mergeSpec]
  | cons u rest ih =>
    simp only [List.map_cons, List.foldlM_cons, inner_loop, bind, Except.bind]
    rw [ih]
    simp [mergeSpec, List.flatMap_cons]

theorem mergeStep_eq (movies userMovies : List (List (String × JVal))) :
    mergeStep (arr (movies.map obj)) (arr (userMovies.map obj)) =
      .ok (mergeSpec movies userMovies) := by
  unfold mergeStep
  rw [outer_loop]
  simp

/-! ## The catalog views -/

theorem ratedWithId_obj (rating : String) (movie : List (String × JVal)) :
    ratedWithId rating (obj movie) = .ok (ratedAndIdentified rating movie) := by
  unfold ratedWithId ratedAndIdentified
  simp only [getProp, bind, Except.bind, pure, Except.pure]
  split <;> simp_all

theorem filterList_obj (rating : String) (movies : List (List (String × JVal))) :
    filterList (ratedWithId rating) (movies.map obj) =
      .ok ((movies.filter (ratedAndIdentified rating)).map obj) := by
  induction movies with
  | nil => rfl
  | cons m rest ih =>
    simp only [List.map_cons, filterList, ratedWithId_obj, ih, bind, Except.bind, pure,
      Except.pure]
    by_cases h : ratedAndIdentified rating m = true
    · simp [h]
    · simp [h]

theorem mem_rated (rating : String) (movies : List (List (String × JVal)))
    (movie : List (String × JVal)) :
    movie ∈ movies.filter (ratedAndIdentified rating) ↔
      movie ∈ movies ∧ lookup "contentRating" movie = str rating ∧
        truthy (lookup "_id" movie) = true := by
  simp [List.mem_filter, ratedAndIdentified, strictEq_str_right]

/-- The state built when both requests resolve with bodies whose `data` holds rows of
objects. -/
theorem hydrate_rows (cookies body₁ body₂ : List (String × JVal))
    (movies userMovies : List (List (String × JVal))) (status₁ status₂ : Nat)
    (h₁ : lookup "data" body₁ = arr (movies.map obj))
    (h₂ : lookup "data" body₂ = arr (userMovies.map obj)) :
    hydrate cookies (.ok { data := obj body₁, status := status₁ })
        (.ok { data := obj body₂, status := status₂ }) =
      .ok (obj [("user", obj [("id", lookup "id" cookies), ("email", lookup "email" cookies),
          ("name", lookup "name" cookies)]),
        ("playing", obj []),
        ("myList", arr (mergeSpec movies userMovies)),
        ("trends", arr ((movies.filter (ratedAndIdentified "PG")).map obj)),
        ("originals", arr ((movies.filter (ratedAndIdentified "G")).map obj))]) := by
  unfold hydrate
  simp only [getProp, h₁, h₂, mergeStep_eq, JVal.filter, filterList_obj, bind, Except.bind,
    pure, Except.pure]

/-! ## Failure of the hydration -/

theorem forEach_not_array {σ : Type} (v : JVal) (callback : σ → JVal → Except JsError σ)
    (init : σ) (h : ∀ xs, v ≠ arr xs) : forEach v callback init = .error JsError.typeError := by
  cases v <;> first | rfl | exact absurd rfl (h _)

theorem filter_not_array (v : JVal) (callback : JVal → Except JsError Bool)
    (h : ∀ xs, v ≠ arr xs) : JVal.filter v callback = .error JsError.typeError := by
  cases v <;> first | rfl | exact absurd rfl (h _)

theorem payload_not_array (response : AxiosResponse) (h : hasArrayPayload response = false) :
    (∃ e, getProp response.data "data" = .error e) ∨
      ∃ v, getProp response.data "data" = .ok v ∧ ∀ xs, v ≠ arr xs := by
  obtain ⟨data, status⟩ := response
  cases data with
  | undefined => exact Or.inl ⟨_, rfl⟩
  | null => exact Or.inl ⟨_, rfl⟩
  | bool b => exact Or.inr ⟨_, rfl, fun xs hx => by cases hx⟩
  | num n => exact Or.inr ⟨_, rfl, fun xs hx => by cases hx⟩
  | str t => exact Or.inr ⟨_, rfl, fun xs hx => by cases hx⟩
  | arr ys => exact Or.inr ⟨_, rfl, fun xs hx => by cases hx⟩
  | obj fields =>
    refine Or.inr ⟨lookup "data" fields, rfl, fun xs hx => ?_⟩
    simp [hasArrayPayload, hx] at h

theorem hydrate_movies_rejected (cookies : List (String × JVal)) (e : JsError)
    (userList : Except JsError AxiosResponse) :
    hydrate cookies (.error e) userList = .error e := rfl

theorem hydrate_userList_rejected (cookies : List (String × JVal)) (e : JsError)
    (movies : Except JsError AxiosResponse) :
    ∃ e', hydrate cookies movies (.error e) = .error e' := by
  cases movies with
  | error e₁ => exact ⟨e₁, rfl⟩
  | ok response =>
    unfold hydrate
    cases hp : getProp response.data "data" with
    | error e₂ => exact ⟨e₂, by simp [hp, bind, Except.bind]⟩
    | ok v => exact ⟨e, by simp [hp, bind, Except.bind]⟩

theorem hydrate_movies_not_array (cookies : List (String × JVal)) (response : AxiosResponse)
    (userList : Except JsError AxiosResponse) (h : hasArrayPayload response = false) :
    ∃ e', hydrate cookies (.ok response) userList = .error e' := by
  unfold hydrate
  rcases payload_not_array response h with ⟨e, he⟩ | ⟨v, hv, hnot⟩
  · exact ⟨e, by simp [he, bind, Except.bind]⟩
  · cases userList with
    | error e₂ => exact ⟨e₂, by simp [hv, bind, Except.bind]⟩
    | ok response₂ =>
      cases hp : getProp response₂.data "data" with
      | error e₃ => exact ⟨e₃, by simp [hv, hp, bind, Except.bind]⟩
      | ok w =>
        cases hm : mergeStep v w with
        | error e₄ => exact ⟨e₄, by simp [hv, hp, hm, bind, Except.bind]⟩
        | ok myList =>
          exact ⟨JsError.typeError, by
            simp [hv, hp, hm, filter_not_array v _ hnot, bind, Except.bind]⟩

theorem hydrate_userList_not_array (cookies : List (String × JVal))
    (movies : Except JsError AxiosResponse) (response : AxiosResponse)
    (h : hasArrayPayload response = false) :
    ∃ e', hydrate cookies movies (.ok response) = .error e' := by
  cases movies with
  | error e₁ => exact ⟨e₁, rfl⟩
  | ok response₁ =>
    unfold hydrate
    cases hp : getProp response₁.data "data" with
    | error e₂ => exact ⟨e₂, by simp [hp, bind, Except.bind]⟩
    | ok v =>
      rcases payload_not_array response h with ⟨e, he⟩ | ⟨w, hw, hnot⟩
      · exact ⟨e, by simp [hp, he, bind, Except.bind]⟩
      · exact ⟨JsError.typeError, by
          simp [hp, hw, mergeStep, forEach_not_array w _ _ hnot, bind, Except.bind]⟩

theorem initialState_of_error (cookies : List (String × JVal))
    (movies userList : Except JsError AxiosResponse)
    (h : ∃ e, hydrate cookies movies userList = .error e) :
    initialState cookies movies userList = emptyState := by
  obtain ⟨e, he⟩ := h
  simp [initialState, he]

/-! ## Counting the entries of the merge -/

theorem mergeSpec_append (movies first second : List (List (String × JVal))) :
    mergeSpec movies (first ++ second) = mergeSpec movies first ++ mergeSpec movies second := by
  simp [mergeSpec, List.flatMap_append]

theorem mergeSpec_cons (movies rest : List (List (String × JVal)))
    (userMovie : List (String × JVal)) :
    mergeSpec movies (userMovie :: rest) =
      (movies.filter (idsMatch userMovie)).map (myListEntry userMovie) ++
        mergeSpec movies rest := by
  simp [mergeSpec, List.flatMap_cons]

theorem filter_idsMatch_none (movies : List (List (String × JVal)))
    (userMovie : List (String × JVal)) (h : ∀ movie ∈ movies, idsMatch userMovie movie = false) :
    movies.filter (idsMatch userMovie) = [] := by
  rw [List.filter_eq_nil_iff]
  intro movie hm
  simp [h movie hm]

theorem matches_of_distinct (movies : List (List (String × JVal)))
    (userMovie : List (String × JVal))
    (hdistinct : movies.Pairwise
      (fun a b => strictEq (lookup "_id" a) (lookup "_id" b) = false)) :
    (movies.filter (idsMatch userMovie)).length =
      if movies.any (idsMatch userMovie) then 1 else 0 := by
  induction movies with
  | nil => rfl
  | cons m rest ih =>
    rw [List.pairwise_cons] at hdistinct
    obtain ⟨hm, hrest⟩ := hdistinct
    by_cases h : idsMatch userMovie m = true
    · have hnone : ∀ movie ∈ rest, idsMatch userMovie movie = false := by
        intro movie hmem
        by_contra hne
        have hyes : idsMatch userMovie movie = true := by simpa using hne
        have := strictEq_trans_left h hyes
        rw [hm movie hmem] at this
        exact Bool.noConfusion this
      simp [List.filter_cons, h, filter_idsMatch_none rest userMovie hnone]
    · have h' : idsMatch userMovie m = false := by simpa using h
      simp [List.filter_cons, h', ih hrest]

theorem mergeSpec_length_distinct (movies userMovies : List (List (String × JVal)))
    (hdistinct : movies.Pairwise
      (fun a b => strictEq (lookup "_id" a) (lookup "_id" b) = false)) :
    (mergeSpec movies userMovies).length =
      userMovies.countP (fun userMovie => movies.any (idsMatch userMovie)) := by
  induction userMovies with
  | nil => rfl
  | cons u rest ih =>
    rw [mergeSpec_cons, List.length_append, List.length_map,
      matches_of_distinct movies u hdistinct, ih, List.countP_cons]
    split <;> simp_all
    omega

/-! ## The claims on the hydrated state -/

/-- C1: for every catalog and every sequence of user-movie rows, the merge loops of `renderApp`
return exactly the walk of the rows in order that emits, for each row, one entry per catalog
movie whose `_id` is strictly equal to the row's `movieId`, the entry being the movie's fields
with `userMovieId` set to the row's `_id`; this list is the `myList` of the state; its order is
that of the rows, and a row matching no movie of the catalog contributes no entry. -/
theorem myList_follows_userMovies (movies userMovies : List (List (String × JVal))) :
    mergeStep (arr (movies.map obj)) (arr (userMovies.map obj)) =
        .ok (userMovies.flatMap (fun userMovie =>
          (movies.filter
            (fun movie => strictEq (lookup "_id" movie) (lookup "movieId" userMovie))).map
            (fun movie => obj (setProp "userMovieId" (lookup "_id" userMovie) movie)))) ∧
      (∀ cookies, lookup "myList" (ownProps (initialState cookies
          (.ok (listResponse (arr (movies.map obj))))
          (.ok (listResponse (arr (userMovies.map obj)))))) =
        arr (mergeSpec movies userMovies)) ∧
      (∀ userMovie movie k,
        lookup k (setProp "userMovieId" (lookup "_id" userMovie) movie) =
          if k = "userMovieId" then lookup "_id" userMovie else lookup k movie) ∧
      (∀ entry ∈ mergeSpec movies userMovies, ∃ userMovie ∈ userMovies, ∃ movie ∈ movies,
        strictEq (lookup "_id" movie) (lookup "movieId" userMovie) = true ∧
          entry = obj (setProp "userMovieId" (lookup "_id" userMovie) movie)) ∧
      (∀ first second, userMovies = first ++ second →
        mergeSpec movies userMovies = mergeSpec movies first ++ mergeSpec movies second) ∧
      (∀ before userMovie after, userMovies = before ++ userMovie :: after →
        (∀ movie ∈ movies,
          strictEq (lookup "_id" movie) (lookup "movieId" userMovie) = false) →
        mergeSpec movies userMovies = mergeSpec movies (before ++ after)) := by
  refine ⟨mergeStep_eq movies userMovies, ?_, ?_, ?_, ?_, ?_⟩
  · intro cookies
    simp only [initialState, listResponse]
    rw [hydrate_rows cookies _ _ movies userMovies 200 200 (by simp [lookup])
      (by simp [lookup])]
    simp [ownProps, lookup]
  · intro userMovie movie k
    by_cases hk : k = "userMovieId"
    · subst hk
      simp [lookup_setProp_same]
    · simp [hk, lookup_setProp_other _ _ _ _ hk]
  · intro entry hentry
    simp only [mergeSpec, List.mem_flatMap, List.mem_map, List.mem_filter] at hentry
    obtain ⟨userMovie, hu, movie, ⟨hm, hmatch⟩, rfl⟩ := hentry
    exact ⟨userMovie, hu, movie, hm, hmatch, rfl⟩
  · intro first second h
    rw [h, mergeSpec_append]
  · intro before userMovie after h hnone
    rw [h, mergeSpec_append, mergeSpec_cons, mergeSpec_append,
      filter_idsMatch_none movies userMovie hnone]
    simp

/-- Witness of C1: two rows listed against the order of the catalog, then a row pointing at no
movie. -/
theorem myList_follows_userMovies_witness :
    mergeStep
        (arr ([[("_id", str "m1"), ("title", str "A")],
          [("_id", str "m2"), ("title", str "B")]].map obj))
        (arr ([[("_id", str "u1"), ("movieId", str "m2")],
          [("_id", str "u2"), ("movieId", str "m1")],
          [("_id", str "u3"), ("movieId", str "m9")]].map obj)) =
      .ok [obj [("_id", str "m2"), ("title", str "B"), ("userMovieId", str "u1")],
        obj [("_id", str "m1"), ("title", str "A"), ("userMovieId", str "u2")]] ∧
    mergeSpec [[("_id", str "m1"), ("title", str "A")], [("_id", str "m2"), ("title", str "B")]]
        [[("_id", str "u1"), ("movieId", str "m2")], [("_id", str "u2"), ("movieId", str "m1")],
          [("_id", str "u3"), ("movieId", str "m9")]] =
      mergeSpec [[("_id", str "m1"), ("title", str "A")], [("_id", str "m2"), ("title", str "B")]]
        ([[("_id", str "u1"), ("movieId", str "m2")], [("_id", str "u2"), ("movieId", str "m1")]]
          ++ []) :=
  ⟨(myList_follows_userMovies _ _).1,
   (myList_follows_userMovies
      [[("_id", str "m1"), ("title", str "A")], [("_id", str "m2"), ("title", str "B")]]
      [[("_id", str "u1"), ("movieId", str "m2")], [("_id", str "u2"), ("movieId", str "m1")],
        [("_id", str "u3"), ("movieId", str "m9")]]).2.2.2.2.2
      [[("_id", str "u1"), ("movieId", str "m2")], [("_id", str "u2"), ("movieId", str "m1")]]
      [("_id", str "u3"), ("movieId", str "m9")] [] rfl
      (by intro movie hmovie; simp at hmovie; rcases hmovie with rfl | rfl <;> rfl)⟩

/-- C10, as stated, fails: with a catalog listing the same `_id` twice, a single user-movie row
yields two entries, more than the one matching row and more than the length of `userMovies`. -/
theorem myList_length_duplicate_ids_counterexample :
    ∃ myList,
      mergeStep (arr [obj [("_id", str "m1")], obj [("_id", str "m1")]])
          (arr [obj [("_id", str "u1"), ("movieId", str "m1")]]) = .ok myList ∧
        myList.length = 2 ∧
        [[("_id", str "u1"), ("movieId", str "m1")]].countP
            (fun userMovie =>
              [[("_id", str "m1")], [("_id", str "m1")]].any (idsMatch userMovie)) = 1 ∧
        [[("_id", str "u1"), ("movieId", str "m1")]].length = 1 :=
  ⟨[obj [("_id", str "m1"), ("userMovieId", str "u1")],
    obj [("_id", str "m1"), ("userMovieId", str "u1")]], rfl, rfl, rfl, rfl⟩

/-- C10, amended: for every catalog in which no two movies have strictly equal `_id`s and every
sequence of user-movie rows, the merge returns a list whose length is the number of rows whose
`movieId` equals the `_id` of some catalog movie, which never exceeds the number of rows. -/
theorem myList_length_distinct_ids (movies userMovies : List (List (String × JVal)))
    (hdistinct : movies.Pairwise
      (fun a b => strictEq (lookup "_id" a) (lookup "_id" b) = false)) :
    ∃ myList,
      mergeStep (arr (movies.map obj)) (arr (userMovies.map obj)) = .ok myList ∧
        myList.length =
          userMovies.countP (fun userMovie =>
            movies.any (fun movie =>
              strictEq (lookup "_id" movie) (lookup "movieId" userMovie))) ∧
        myList.length ≤ userMovies.length := by
  refine ⟨mergeSpec movies userMovies, mergeStep_eq movies userMovies, ?_, ?_⟩
  · exact mergeSpec_length_distinct movies userMovies hdistinct
  · rw [mergeSpec_length_distinct movies userMovies hdistinct]
    exact List.countP_le_length _

/-- Witness of the amended C10: a catalog of two distinct ids and three rows, two of them
matching. -/
theorem myList_length_distinct_ids_witness :
    ∃ myList,
      mergeStep (arr ([[("_id", str "m1")], [("_id", str "m2")]].map obj))
          (arr ([[("_id", str "u1"), ("movieId", str "m2")],
            [("_id", str "u2"), ("movieId", str "m9")],
            [("_id", str "u3"), ("movieId", str "m1")]].map obj)) = .ok myList ∧
        myList.length =
          [[("_id", str "u1"), ("movieId", str "m2")],
            [("_id", str "u2"), ("movieId", str "m9")],
            [("_id", str "u3"), ("movieId", str "m1")]].countP (fun userMovie =>
              [[("_id", str "m1")], [("_id", str "m2")]].any (fun movie =>
                strictEq (lookup "_id" movie) (lookup "movieId" userMovie))) ∧
        myList.length ≤
          [[("_id", str "u1"), ("movieId", str "m2")],
            [("_id", str "u2"), ("movieId", str "m9")],
            [("_id", str "u3"), ("movieId", str "m1")]].length :=
  myList_length_distinct_ids [[("_id", str "m1")], [("_id", str "m2")]] _
    (by simp [lookup, strictEq])

/-- C2, as stated, fails: a catalog movie rated exactly `PG` whose `_id` is the empty string, a
non-null value, is not in `trends` although both requests succeed. -/
theorem trends_empty_id_counterexample :
    lookup "contentRating" [("_id", str ""), ("contentRating", str "PG")] = str "PG" ∧
      lookup "_id" [("_id", str ""), ("contentRating", str "PG")] ≠ null ∧
      lookup "_id" [("_id", str ""), ("contentRating", str "PG")] ≠ undefined ∧
      lookup "trends" (ownProps (initialState []
        (.ok (listResponse (arr [obj [("_id", str ""), ("contentRating", str "PG")]])))
        (.ok (listResponse (arr []))))) = arr [] :=
  ⟨rfl, by simp [lookup], by simp [lookup], rfl⟩

/-- C2, amended: when both requests resolve with rows of objects, `trends` is the catalog
filtered, in catalog order, to the movies whose `contentRating` is exactly `PG` and whose `_id`
is truthy (not `undefined`, `null`, `false`, `0` or the empty string), `originals` is the same
with `G`, membership in each list is equivalent to that guard, and no movie is in both. -/
theorem catalog_views_truthy_id (cookies body₁ body₂ : List (String × JVal))
    (movies userMovies : List (List (String × JVal))) (status₁ status₂ : Nat)
    (h₁ : lookup "data" body₁ = arr (movies.map obj))
    (h₂ : lookup "data" body₂ = arr (userMovies.map obj)) :
    ∃ trends originals : List (List (String × JVal)),
      lookup "trends" (ownProps (initialState cookies
          (.ok { data := obj body₁, status := status₁ })
          (.ok { data := obj body₂, status := status₂ }))) = arr (trends.map obj) ∧
        lookup "originals" (ownProps (initialState cookies
          (.ok { data := obj body₁, status := status₁ })
          (.ok { data := obj body₂, status := status₂ }))) = arr (originals.map obj) ∧
        trends = movies.filter (fun movie =>
          strictEq (lookup "contentRating" movie) (str "PG") && truthy (lookup "_id" movie)) ∧
        originals = movies.filter (fun movie =>
          strictEq (lookup "contentRating" movie) (str "G") && truthy (lookup "_id" movie)) ∧
        (∀ movie, movie ∈ trends ↔ movie ∈ movies ∧ lookup "contentRating" movie = str "PG" ∧
          truthy (lookup "_id" movie) = true) ∧
        (∀ movie, movie ∈ originals ↔ movie ∈ movies ∧
          lookup "contentRating" movie = str "G" ∧ truthy (lookup "_id" movie) = true) ∧
        trends.Sublist movies ∧ originals.Sublist movies ∧
        ∀ movie, ¬(movie ∈ trends ∧ movie ∈ originals) := by
  refine ⟨movies.filter (ratedAndIdentified "PG"), movies.filter (ratedAndIdentified "G"),
    ?_, ?_, rfl, rfl, mem_rated "PG" movies, mem_rated "G" movies, List.filter_sublist _,
    List.filter_sublist _, ?_⟩
  · simp only [initialState]
    rw [hydrate_rows cookies body₁ body₂ movies userMovies status₁ status₂ h₁ h₂]
    simp [ownProps, lookup]
  · simp only [initialState]
    rw [hydrate_rows cookies body₁ body₂ movies userMovies status₁ status₂ h₁ h₂]
    simp [ownProps, lookup]
  · intro movie ⟨ht, ho⟩
    rw [mem_rated] at ht ho
    have h := ht.2.1.symm.trans ho.2.1
    simp at h

/-- Witness of the amended C2: a catalog with a `PG` movie, a `G` movie, a `PG` movie whose
`_id` is `0` and an unrated one, in a body that also carries a message. -/
theorem catalog_views_truthy_id_witness :
    ∃ trends originals : List (List (String × JVal)),
      lookup "trends" (ownProps (initialState [("id", str "u1")]
          (.ok (AxiosResponse.mk
            (obj [("data", arr ([[("_id", str "m1"), ("contentRating", str "PG")],
              [("_id", str "m2"), ("contentRating", str "G")],
              [("_id", num 0), ("contentRating", str "PG")],
              [("_id", str "m4")]].map obj)), ("message", str "movies listed")]) 200))
          (.ok (AxiosResponse.mk
            (obj [("data", arr (([] : List (List (String × JVal))).map obj))]) 200)))) = arr (trends.map obj) ∧
        lookup "originals" (ownProps (initialState [("id", str "u1")]
          (.ok (AxiosResponse.mk
            (obj [("data", arr ([[("_id", str "m1"), ("contentRating", str "PG")],
              [("_id", str "m2"), ("contentRating", str "G")],
              [("_id", num 0), ("contentRating", str "PG")],
              [("_id", str "m4")]].map obj)), ("message", str "movies listed")]) 200))
          (.ok (AxiosResponse.mk
            (obj [("data", arr (([] : List (List (String × JVal))).map obj))]) 200)))) = arr (originals.map obj) ∧
        trends = [[("_id", str "m1"), ("contentRating", str "PG")]] ∧
        originals = [[("_id", str "m2"), ("contentRating", str "G")]] := by
  obtain ⟨trends, originals, ht, ho, htf, hof, -⟩ :=
    catalog_views_truthy_id [("id", str "u1")]
      [("data", arr ([[("_id", str "m1"), ("contentRating", str "PG")],
        [("_id", str "m2"), ("contentRating", str "G")],
        [("_id", num 0), ("contentRating", str "PG")],
        [("_id", str "m4")]].map obj)), ("message", str "movies listed")]
      [("data", arr (([] : List (List (String × JVal))).map obj))]
      [[("_id", str "m1"), ("contentRating", str "PG")],
        [("_id", str "m2"), ("contentRating", str "G")],
        [("_id", num 0), ("contentRating", str "PG")],
        [("_id", str "m4")]]
      [] 200 200 rfl rfl
  exact ⟨trends, originals, ht, ho, htf.trans rfl, hof.trans rfl⟩

/-- C3, as stated, fails: the user-movie request returns a malformed body, whose rows hold the
number 42 where an object is expected, and the state keeps the user fields and the `trends`
computed from the other request. -/
theorem malformed_rows_counterexample :
    isRowList (arr [num 42]) = false ∧
      initialState [("id", str "u1")]
          (.ok (listResponse (arr [obj [("_id", str "m1"), ("contentRating", str "PG")]])))
          (.ok (listResponse (arr [num 42]))) =
        obj [("user", obj [("id", str "u1"), ("email", undefined), ("name", undefined)]),
          ("playing", obj []), ("myList", arr []),
          ("trends", arr [obj [("_id", str "m1"), ("contentRating", str "PG")]]),
          ("originals", arr [])] ∧
      initialState [("id", str "u1")]
          (.ok (listResponse (arr [obj [("_id", str "m1"), ("contentRating", str "PG")]])))
          (.ok (listResponse (arr [num 42]))) ≠ emptyState := by
  refine ⟨rfl, rfl, ?_⟩
  have h : initialState [("id", str "u1")]
      (.ok (listResponse (arr [obj [("_id", str "m1"), ("contentRating", str "PG")]])))
      (.ok (listResponse (arr [num 42]))) =
    obj [("user", obj [("id", str "u1"), ("email", undefined), ("name", undefined)]),
      ("playing", obj []), ("myList", arr []),
      ("trends", arr [obj [("_id", str "m1"), ("contentRating", str "PG")]]),
      ("originals", arr [])] := rfl
  rw [h]
  simp [emptyState]

/-- C3, amended: if either request rejects, or resolves with a response whose `data.data` is
not an array, then for every cookie set and whatever the other request gave, the state is
exactly `{user:{}, playing:{}, myList:[], trends:[], originals:[]}`. -/
theorem failed_fetch_gives_emptyState (cookies : List (String × JVal))
    (movies userList : Except JsError AxiosResponse)
    (h : (∃ e, movies = .error e) ∨ (∃ e, userList = .error e) ∨
      (∃ response, movies = .ok response ∧ hasArrayPayload response = false) ∨
      (∃ response, userList = .ok response ∧ hasArrayPayload response = false)) :
    initialState cookies movies userList =
      obj [("user", obj []), ("playing", obj []), ("myList", arr []), ("trends", arr []),
        ("originals", arr [])] := by
  apply initialState_of_error
  rcases h with ⟨e, rfl⟩ | ⟨e, rfl⟩ | ⟨response, rfl, hr⟩ | ⟨response, rfl, hr⟩
  · exact ⟨e, hydrate_movies_rejected cookies e userList⟩
  · exact hydrate_userList_rejected cookies e movies
  · exact hydrate_movies_not_array cookies response userList hr
  · exact hydrate_userList_not_array cookies movies response hr

/-- Witness of the amended C3: the user-movie request rejects after the catalog request
returned a rated movie, for a signed-in user. -/
theorem failed_fetch_gives_emptyState_witness :
    initialState [("id", str "u1"), ("email", str "a@b.c"), ("name", str "Ann")]
        (.ok (listResponse (arr [obj [("_id", str "m1"), ("contentRating", str "PG")]])))
        (.error (JsError.requestFailed 401)) =
      obj [("user", obj []), ("playing", obj []), ("myList", arr []), ("trends", arr []),
        ("originals", arr [])] :=
  failed_fetch_gives_emptyState _ _ _ (Or.inr (Or.inl ⟨_, rfl⟩))

/-! ## The handlers -/

theorem not_isDevelopment (ENV : Option String) :
    (!isDevelopment ENV) = decide (ENV ≠ some "development") := by
  by_cases h : ENV = some "development" <;> simp [isDevelopment, h]

/-- C4: for every `ENV` and every user object `data` handed over by a successful
authentication, the sign-in handler sets the cookie `token` to `data.token`, with `httpOnly` and
`secure` both false when `ENV` is `development` and both true otherwise, then answers status 200
with `data` without its `token` field: the body has no `token` key and every other key (`id`,
`email`, `name`, ...) reads as in `data`. -/
theorem signIn_success (ENV : Option String) (fields : List (String × JVal)) :
    signIn ENV none (obj fields) none =
        [Effect.cookie "token" (lookup "token" fields) (decide (ENV ≠ some "development"))
          (decide (ENV ≠ some "development")),
         Effect.json 200 (obj (fields.filter (fun field => field.1 != "token")))] ∧
      (∀ value, ("token", value) ∉ fields.filter (fun field => field.1 != "token")) ∧
      lookup "token" (fields.filter (fun field => field.1 != "token")) = undefined ∧
      (∀ key, key ≠ "token" →
        lookup key (fields.filter (fun field => field.1 != "token")) = lookup key fields) ∧
      (signIn (some "development") none (obj fields) none =
        [Effect.cookie "token" (lookup "token" fields) false false,
         Effect.json 200 (obj (fields.filter (fun field => field.1 != "token")))]) ∧
      (ENV ≠ some "development" → signIn ENV none (obj fields) none =
        [Effect.cookie "token" (lookup "token" fields) true true,
         Effect.json 200 (obj (fields.filter (fun field => field.1 != "token")))]) := by
  have hrun : ∀ E : Option String, signIn E none (obj fields) none =
      [Effect.cookie "token" (lookup "token" fields) (decide (E ≠ some "development"))
        (decide (E ≠ some "development")),
       Effect.json 200 (obj (fields.filter (fun field => field.1 != "token")))] := by
    intro E
    simp only [signIn, loginCallback, getProp, ownProps, truthy, not_isDevelopment]
    rfl
  refine ⟨hrun ENV, ?_, lookup_filter_removed "token" fields,
    fun key hkey => lookup_filter_other "token" key fields hkey, ?_, ?_⟩
  · intro value hmem
    simp [List.mem_filter] at hmem
  · rw [hrun]
    simp
  · intro hENV
    rw [hrun]
    simp [hENV]

/-- Witness of C4: a production sign-in for a user with id, email and name. -/
theorem signIn_success_witness :
    signIn (some "production") none
        (obj [("token", str "t0"), ("id", str "u1"), ("email", str "a@b.c"),
          ("name", str "Ann")]) none =
      [Effect.cookie "token" (str "t0") true true,
       Effect.json 200 (obj [("id", str "u1"), ("email", str "a@b.c"), ("name", str "Ann")])] ∧
    lookup "email" ([("token", str "t0"), ("id", str "u1"), ("email", str "a@b.c"),
        ("name", str "Ann")].filter (fun field => field.1 != "token")) =
      lookup "email" [("token", str "t0"), ("id", str "u1"), ("email", str "a@b.c"),
        ("name", str "Ann")] :=
  ⟨(signIn_success (some "production") [("token", str "t0"), ("id", str "u1"),
      ("email", str "a@b.c"), ("name", str "Ann")]).2.2.2.2.2 (by decide),
   (signIn_success (some "production") [("token", str "t0"), ("id", str "u1"),
      ("email", str "a@b.c"), ("name", str "Ann")]).2.2.2.1 "email" (by decide)⟩

/-- C5 on the code: when the strategy reports no error and yields `false` for the user (rejected
credentials), the handler calls `next(boom.unauthorized())` and, for want of a `return`, goes on
to set a `token` cookie and to answer status 200 with an empty JSON object. -/
theorem signIn_rejected_still_answers (ENV : Option String) :
    signIn ENV none (bool false) none =
      [Effect.next JsError.unauthorized,
       Effect.cookie "token" undefined (decide (ENV ≠ some "development"))
         (decide (ENV ≠ some "development")),
       Effect.json 200 (obj [])] := by
  simp only [signIn, loginCallback, getProp, ownProps, truthy, not_isDevelopment]
  rfl

/-- C6, as stated, fails: when the remote delete answers 404, a status axios does not redirect
on, axios rejects the request and the handler forwards that rejection to `next`, not
`boom.badImplementation()`. -/
theorem delete_404_counterexample :
    deleteUserMovie (axiosSettle defaultValidateStatus { data := null, status := 404 }) =
        [Effect.next (JsError.requestFailed 404)] ∧
      deleteUserMovie (axiosSettle defaultValidateStatus { data := null, status := 404 }) ≠
        [Effect.next JsError.badImplementation] := by
  refine ⟨rfl, ?_⟩
  have h : deleteUserMovie (axiosSettle defaultValidateStatus { data := null, status := 404 }) =
      [Effect.next (JsError.requestFailed 404)] := rfl
  rw [h]
  simp

/-- C6, amended: for every response the axios request of the delete handler ends on (the final
response, after the redirects axios followed), under the default `validateStatus`: status 200
with body `b` gives the local response status 200 with body `b`; any other status sends no
success response and signals an error to `next`, which is `boom.badImplementation()` when axios
resolves the request (another 2xx status) and the axios rejection itself when it rejects (a
status outside 200-299, such as 404). On the outcome of the awaited request: resolved with 200
answers 200 with the body, resolved with another status signals `boom.badImplementation()`,
rejected forwards the rejection. -/
theorem delete_proxy_cases (final : AxiosResponse) :
    (final.status = 200 →
      deleteUserMovie (axiosSettle defaultValidateStatus final) =
        [Effect.json 200 final.data]) ∧
    (final.status ≠ 200 → 200 ≤ final.status ∧ final.status < 300 →
      deleteUserMovie (axiosSettle defaultValidateStatus final) =
        [Effect.next JsError.badImplementation]) ∧
    (¬(200 ≤ final.status ∧ final.status < 300) → final.status ≠ 0 →
      deleteUserMovie (axiosSettle defaultValidateStatus final) =
        [Effect.next (JsError.requestFailed final.status)]) ∧
    (final.status ≠ 200 →
      ∃ err, deleteUserMovie (axiosSettle defaultValidateStatus final) = [Effect.next err]) ∧
    deleteUserMovie (.ok (AxiosResponse.mk final.data 200)) = [Effect.json 200 final.data] ∧
    (∀ status, status ≠ 200 →
      deleteUserMovie (.ok (AxiosResponse.mk final.data status)) =
        [Effect.next JsError.badImplementation]) ∧
    (∀ err, deleteUserMovie (.error err) = [Effect.next err]) := by
  refine ⟨?_, ?_, ?_, ?_, ?_, ?_, ?_⟩
  · intro h
    simp [deleteUserMovie, axiosSettle, defaultValidateStatus, h]
  · intro h hrange
    simp [deleteUserMovie, axiosSettle, defaultValidateStatus, h, hrange.1, hrange.2]
  · intro hrange hzero
    have hv : defaultValidateStatus final.status = false := by
      simp only [defaultValidateStatus]
      by_cases h1 : 200 ≤ final.status
      · have h2 : ¬ final.status < 300 := fun h2 => hrange ⟨h1, h2⟩
        simp [h1, h2]
      · simp [h1]
    simp [deleteUserMovie, axiosSettle, hv, hzero]
  · intro h
    by_cases hv : (final.status == 0 || defaultValidateStatus final.status) = true
    · refine ⟨JsError.badImplementation, ?_⟩
      simp only [axiosSettle, hv, if_true, deleteUserMovie]
      simp [h]
    · refine ⟨JsError.requestFailed final.status, ?_⟩
      simp only [axiosSettle, hv, deleteUserMovie]
      simp
  · simp [deleteUserMovie]
  · intro status h
    simp [deleteUserMovie, h]
  · intro err
    rfl

/-- Witness of the amended C6: the request ends on 200 `{ok:true}`, on 204 and on 404. -/
theorem delete_proxy_cases_witness :
    deleteUserMovie (axiosSettle defaultValidateStatus
        (AxiosResponse.mk (obj [("ok", bool true)]) 200)) =
      [Effect.json 200 (obj [("ok", bool true)])] ∧
    deleteUserMovie (axiosSettle defaultValidateStatus (AxiosResponse.mk null 204)) =
      [Effect.next JsError.badImplementation] ∧
    deleteUserMovie (axiosSettle defaultValidateStatus (AxiosResponse.mk null 404)) =
      [Effect.next (JsError.requestFailed 404)] ∧
    ∃ err, deleteUserMovie (axiosSettle defaultValidateStatus (AxiosResponse.mk null 500)) =
      [Effect.next err] :=
  ⟨(delete_proxy_cases (AxiosResponse.mk (obj [("ok", bool true)]) 200)).1 rfl,
   (delete_proxy_cases (AxiosResponse.mk null 204)).2.1 (by decide) (by decide),
   (delete_proxy_cases (AxiosResponse.mk null 404)).2.2.1 (by decide) (by decide),
   (delete_proxy_cases (AxiosResponse.mk null 500)).2.2.2.1 (by decide)⟩

/-! ## The HTML shell -/

theorem replaceLt_eq_flatMap (cs : List Char) :
    replaceLt cs = cs.flatMap (fun c => if c = '<' then "\\u003c".toList else [c]) := by
  induction cs with
  | nil => rfl
  | cons c rest ih =>
    by_cases h : c = '<'
    · simp [replaceLt, h, ih, List.flatMap_cons]
    · simp [replaceLt, h, ih, List.flatMap_cons]

theorem not_mem_replaceLt (cs : List Char) : '<' ∉ replaceLt cs := by
  induction cs with
  | nil => simp [replaceLt]
  | cons c rest ih =>
    by_cases h : c = '<'
    · simp only [replaceLt, h, if_true, List.mem_append, not_or]
      exact ⟨by decide, ih⟩
    · simp only [replaceLt, h, if_false, List.mem_cons, not_or]
      exact ⟨fun hc => h hc.symm, ih⟩

theorem replaceLt_length (cs : List Char) :
    (replaceLt cs).length = cs.length + 5 * cs.count '<' := by
  induction cs with
  | nil => rfl
  | cons c rest ih =>
    by_cases h : c = '<'
    · subst h
      simp only [replaceLt, if_true, List.length_append, ih, List.length_cons,
        List.count_cons_self]
      have : "\\u003c".toList.length = 6 := by decide
      omega
    · simp only [replaceLt, h, if_false, List.length_cons, ih]
      rw [List.count_cons_of_ne (fun hc => h hc.symm)]
      omega

theorem replaceLt_of_not_mem (cs : List Char) (h : '<' ∉ cs) : replaceLt cs = cs := by
  induction cs with
  | nil => rfl
  | cons c rest ih =>
    simp only [List.mem_cons, not_or] at h
    have hc : ¬c = '<' := fun e => h.1 e.symm
    simp [replaceLt, hc, ih h.2]

theorem infix_between {α : Type} {a b middle X Y before after : List α} (ha : a <:+ X)
    (hb : b <+: Y) : a ++ middle ++ b <:+: before ++ (X ++ (middle ++ (Y ++ after))) := by
  obtain ⟨x, rfl⟩ := ha
  obtain ⟨y, rfl⟩ := hb
  exact ⟨before ++ x, y ++ after, by simp [List.append_assoc]⟩

theorem shellHead_suffix : "<link rel=\"stylesheet\" href=\"".toList <:+ shellHead.toList :=
  ⟨shellHead.toList.take 284, rfl⟩

theorem shellBody_prefix : "\" type=\"text/css\"/>".toList <+: shellBody.toList := ⟨_, rfl⟩

theorem shellBody_suffix : "<div id=\"app\">".toList <:+ shellBody.toList :=
  ⟨shellBody.toList.take 94, rfl⟩

theorem shellState_prefix : "</div>".toList <+: shellState.toList := ⟨_, rfl⟩

theorem shellState_suffix : "window.__PRELOADED_STATE__ = ".toList <:+ shellState.toList :=
  ⟨shellState.toList.take 58, rfl⟩

theorem shellMain_prefix : "\n          </script>".toList <+: shellMain.toList := ⟨_, rfl⟩

theorem shellMain_suffix : "<script src=\"".toList <:+ shellMain.toList :=
  ⟨shellMain.toList.take 31, rfl⟩

theorem shellVendor_prefix :
    "\" type=\"text/javascript\"></script>".toList <+: shellVendor.toList := ⟨_, rfl⟩

theorem shellVendor_suffix : "<script src=\"".toList <:+ shellVendor.toList :=
  ⟨shellVendor.toList.take 45, rfl⟩

theorem shellTail_prefix :
    "\" type=\"text/javascript\"></script>".toList <+: shellTail.toList := ⟨_, rfl⟩

theorem occursIn_between {part document : String} (before middle after : List Char)
    {a b X Y : List Char} (ha : a <:+ X) (hb : b <+: Y)
    (hpart : part.toList = a ++ middle ++ b)
    (hdoc : document.toList = before ++ (X ++ (middle ++ (Y ++ after)))) :
    occursIn part document := by
  unfold occursIn
  rw [hpart, hdoc]
  exact infix_between ha hb

theorem link_occurs (mainStyles html payload mainBuild vendorBuild : String) :
    occursIn ("<link rel=\"stylesheet\" href=\"" ++ mainStyles ++ "\" type=\"text/css\"/>")
      (shellTemplate mainStyles html payload mainBuild vendorBuild) :=
  occursIn_between [] mainStyles.toList
    (html ++ shellState ++ payload ++ shellMain ++ mainBuild ++ shellVendor ++ vendorBuild ++
      shellTail).toList
    shellHead_suffix shellBody_prefix (by simp [String.toList, String.data_append])
    (by simp [shellTemplate, String.toList, String.data_append, List.append_assoc])

theorem mount_occurs (mainStyles html payload mainBuild vendorBuild : String) :
    occursIn ("<div id=\"app\">" ++ html ++ "</div>")
      (shellTemplate mainStyles html payload mainBuild vendorBuild) :=
  occursIn_between (shellHead ++ mainStyles).toList html.toList
    (payload ++ shellMain ++ mainBuild ++ shellVendor ++ vendorBuild ++ shellTail).toList
    shellBody_suffix shellState_prefix (by simp [String.toList, String.data_append])
    (by simp [shellTemplate, String.toList, String.data_append, List.append_assoc])

theorem payload_occurs (mainStyles html payload mainBuild vendorBuild : String) :
    occursIn ("window.__PRELOADED_STATE__ = " ++ payload ++ "\n          </script>")
      (shellTemplate mainStyles html payload mainBuild vendorBuild) :=
  occursIn_between (shellHead ++ mainStyles ++ shellBody ++ html).toList payload.toList
    (mainBuild ++ shellVendor ++ vendorBuild ++ shellTail).toList
    shellState_suffix shellMain_prefix (by simp [String.toList, String.data_append])
    (by simp [shellTemplate, String.toList, String.data_append, List.append_assoc])

theorem mainBuild_occurs (mainStyles html payload mainBuild vendorBuild : String) :
    occursIn ("<script src=\"" ++ mainBuild ++ "\" type=\"text/javascript\"></script>")
      (shellTemplate mainStyles html payload mainBuild vendorBuild) :=
  occursIn_between
    (shellHead ++ mainStyles ++ shellBody ++ html ++ shellState ++ payload).toList
    mainBuild.toList (vendorBuild ++ shellTail).toList
    shellMain_suffix shellVendor_prefix (by simp [String.toList, String.data_append])
    (by simp [shellTemplate, String.toList, String.data_append, List.append_assoc])

theorem vendorBuild_occurs (mainStyles html payload mainBuild vendorBuild : String) :
    occursIn ("<script src=\"" ++ vendorBuild ++ "\" type=\"text/javascript\"></script>")
      (shellTemplate mainStyles html payload mainBuild vendorBuild) :=
  occursIn_between
    (shellHead ++ mainStyles ++ shellBody ++ html ++ shellState ++ payload ++ shellMain ++
      mainBuild).toList
    vendorBuild.toList []
    shellVendor_suffix shellTail_prefix (by simp [String.toList, String.data_append])
    (by simp [shellTemplate, String.toList, String.data_append, List.append_assoc])

theorem manifestEntry_of_lookup (manifest : List (String × String)) (key path : String)
    (h : manifest.lookup key = some path) : manifestEntry manifest key = path := by
  simp [manifestEntry, h]

theorem setResponse_some (stringify : JVal → Option String) (html : String)
    (preloadedState : JVal) (manifest : List (String × String)) (json : String)
    (h : stringify preloadedState = some json) :
    setResponse stringify html preloadedState (some manifest) =
      .ok (shellTemplate (manifestEntry manifest "main.css") html (statePayload json)
        (manifestEntry manifest "main.js") (manifestEntry manifest "vendors.js")) := by
  simp only [setResponse, h]

theorem setResponse_none (stringify : JVal → Option String) (html : String)
    (preloadedState : JVal) (json : String) (h : stringify preloadedState = some json) :
    setResponse stringify html preloadedState none =
      .ok (shellTemplate "/assets/app.css" html (statePayload json) "/assets/app.js"
        "assets/vendor.js") := by
  simp only [setResponse, h]

/-- C7: for every state that `JSON.stringify` turns into a text `json`, `setResponse` returns a
document that embeds, right after `window.__PRELOADED_STATE__ = `, the payload obtained from
`json` by replacing each `<` with the six characters `\u003c` and keeping every other character;
the payload holds no `<`, hence no closing script tag. -/
theorem statePayload_has_no_lt (stringify : JVal → Option String) (html : String)
    (preloadedState : JVal) (manifest : Option (List (String × String))) (json : String)
    (h : stringify preloadedState = some json) :
    ∃ document, setResponse stringify html preloadedState manifest = .ok document ∧
      occursIn ("window.__PRELOADED_STATE__ = " ++ statePayload json ++ "\n          </script>")
        document ∧
      '<' ∉ (statePayload json).toList ∧
      (statePayload json).toList =
        json.toList.flatMap (fun c => if c = '<' then ['\\', 'u', '0', '0', '3', 'c'] else [c]) ∧
      (statePayload json).length = json.length + 5 * json.toList.count '<' ∧
      ('<' ∉ json.toList → statePayload json = json) ∧
      ¬occursIn "</script" (statePayload json) := by
  have hdoc : ∃ document, setResponse stringify html preloadedState manifest = .ok document ∧
      occursIn ("window.__PRELOADED_STATE__ = " ++ statePayload json ++ "\n          </script>")
        document := by
    cases manifest with
    | none => exact ⟨_, setResponse_none stringify html preloadedState json h,
        payload_occurs _ _ _ _ _⟩
    | some m => exact ⟨_, setResponse_some stringify html preloadedState m json h,
        payload_occurs _ _ _ _ _⟩
  obtain ⟨document, hok, hocc⟩ := hdoc
  refine ⟨document, hok, hocc, ?_, ?_, ?_, ?_, ?_⟩
  · exact not_mem_replaceLt json.toList
  · exact replaceLt_eq_flatMap json.toList
  · exact replaceLt_length json.toList
  · intro hnone
    unfold statePayload
    rw [replaceLt_of_not_mem json.toList hnone]
    rfl
  · intro hocc
    exact not_mem_replaceLt json.toList (hocc.subset (by decide))

/-- Witness of C7: a state whose JSON text holds a closing script tag. -/
theorem statePayload_has_no_lt_witness :
    ∃ document,
      setResponse (fun _ => some "\x7b\"a\":\"</script>\"\x7d") "<p>hi</p>" null none =
        .ok document ∧
      occursIn ("window.__PRELOADED_STATE__ = " ++
        statePayload "\x7b\"a\":\"</script>\"\x7d" ++ "\n          </script>") document ∧
      statePayload "\x7b\"a\":\"</script>\"\x7d" = "\x7b\"a\":\"\\u003c/script>\"\x7d" := by
  obtain ⟨document, hdoc, hocc, -⟩ :=
    statePayload_has_no_lt (fun _ => some "\x7b\"a\":\"</script>\"\x7d") "<p>hi</p>" null none
      "\x7b\"a\":\"</script>\"\x7d" rfl
  exact ⟨document, hdoc, hocc, by decide⟩

/-- C8: for every markup and every state with a JSON text, the document of `setResponse`
takes its stylesheet href and its two script srcs from `manifest['main.css']`,
`manifest['main.js']` and `manifest['vendors.js']` when a manifest is given, and uses
`/assets/app.css`, `/assets/app.js` and `assets/vendor.js` when none is; in both cases the
markup stands unchanged between `<div id="app">` and `</div>`. -/
theorem setResponse_assets (stringify : JVal → Option String) (html : String)
    (preloadedState : JVal) (json : String) (h : stringify preloadedState = some json) :
    (∀ manifest : List (String × String),
      ∃ document, setResponse stringify html preloadedState (some manifest) = .ok document ∧
        occursIn ("<link rel=\"stylesheet\" href=\"" ++ manifestEntry manifest "main.css" ++
          "\" type=\"text/css\"/>") document ∧
        occursIn ("<script src=\"" ++ manifestEntry manifest "main.js" ++
          "\" type=\"text/javascript\"></script>") document ∧
        occursIn ("<script src=\"" ++ manifestEntry manifest "vendors.js" ++
          "\" type=\"text/javascript\"></script>") document ∧
        occursIn ("<div id=\"app\">" ++ html ++ "</div>") document ∧
        ∀ key path, manifest.lookup key = some path → manifestEntry manifest key = path) ∧
    (∃ document, setResponse stringify html preloadedState none = .ok document ∧
      occursIn "<link rel=\"stylesheet\" href=\"/assets/app.css\" type=\"text/css\"/>"
        document ∧
      occursIn "<script src=\"/assets/app.js\" type=\"text/javascript\"></script>" document ∧
      occursIn "<script src=\"assets/vendor.js\" type=\"text/javascript\"></script>" document ∧
      occursIn ("<div id=\"app\">" ++ html ++ "</div>") document) := by
  constructor
  · intro manifest
    exact ⟨_, setResponse_some stringify html preloadedState manifest json h,
      link_occurs _ _ _ _ _, mainBuild_occurs _ _ _ _ _, vendorBuild_occurs _ _ _ _ _,
      mount_occurs _ _ _ _ _, manifestEntry_of_lookup manifest⟩
  · exact ⟨_, setResponse_none stringify html preloadedState json h,
      link_occurs "/assets/app.css" _ _ _ _, mainBuild_occurs _ _ _ "/assets/app.js" _,
      vendorBuild_occurs _ _ _ _ "assets/vendor.js", mount_occurs _ _ _ _ _⟩

/-- Witness of C8: the document built without a manifest for a short markup. -/
theorem setResponse_assets_witness :
    ∃ document, setResponse (fun _ => some "null") "<p>hi</p>" null none = .ok document ∧
      occursIn "<link rel=\"stylesheet\" href=\"/assets/app.css\" type=\"text/css\"/>"
        document ∧
      occursIn "<script src=\"/assets/app.js\" type=\"text/javascript\"></script>" document ∧
      occursIn "<script src=\"assets/vendor.js\" type=\"text/javascript\"></script>" document ∧
      occursIn ("<div id=\"app\">" ++ "<p>hi</p>" ++ "</div>") document :=
  (setResponse_assets (fun _ => some "null") "<p>hi</p>" null "null" rfl).2

/-! ## The avatar helper -/

theorem trim_eq (cs : List Char) :
    trim cs = ((cs.dropWhile isTrimSpace).reverse.dropWhile isTrimSpace).reverse := rfl

theorem dropEnd_append (cs padding : List Char) (h : ∀ c ∈ padding, isTrimSpace c = true) :
    ((cs ++ padding).reverse.dropWhile isTrimSpace).reverse =
      (cs.reverse.dropWhile isTrimSpace).reverse := by
  rw [List.reverse_append, List.dropWhile_append_of_pos]
  intro c hc
  exact h c (List.mem_reverse.mp hc)

theorem trim_append_right (cs padding : List Char) (h : ∀ c ∈ padding, isTrimSpace c = true) :
    trim (cs ++ padding) = trim cs := by
  induction cs with
  | nil =>
    have hall : padding.dropWhile isTrimSpace = [] := by
      rw [List.dropWhile_eq_nil_iff]
      exact h
    simp [trim, hall]
  | cons c rest ih =>
    by_cases hc : isTrimSpace c = true
    · have h1 : trim (c :: rest ++ padding) = trim (rest ++ padding) := by
        simp [trim, List.dropWhile_cons, hc]
      have h2 : trim (c :: rest) = trim rest := by
        simp [trim, List.dropWhile_cons, hc]
      rw [h1, h2, ih]
    · have h1 : (c :: rest ++ padding).dropWhile isTrimSpace = (c :: rest) ++ padding := by
        simp [List.dropWhile_cons, hc]
      have h2 : (c :: rest).dropWhile isTrimSpace = c :: rest := by
        simp [List.dropWhile_cons, hc]
      rw [trim_eq, trim_eq, h1, h2, dropEnd_append _ _ h]

theorem trim_padded (before cs after : List Char) (hb : ∀ c ∈ before, isTrimSpace c = true)
    (ha : ∀ c ∈ after, isTrimSpace c = true) : trim (before ++ cs ++ after) = trim cs := by
  rw [trim_append_right _ _ ha, trim_eq, List.dropWhile_append_of_pos hb]
  rfl

theorem isTrimSpace_toLower (c : Char) : isTrimSpace c.toLower = isTrimSpace c := by
  unfold Char.toLower
  by_cases h : c.toNat ≥ 65 ∧ c.toNat ≤ 90
  · simp only [h, and_self, if_true]
    obtain ⟨h1, h2⟩ := h
    have hl : isTrimSpace c = false := by
      unfold isTrimSpace
      generalize c.toNat = n at h1 h2
      interval_cases n <;> rfl
    rw [hl]
    unfold isTrimSpace
    generalize c.toNat = n at h1 h2
    interval_cases n <;> rfl
  · simp only [h, if_false]

theorem trim_map_fold (fold : Char → Char) (hfold : ∀ c, isTrimSpace (fold c) = isTrimSpace c)
    (cs : List Char) : trim (cs.map fold) = (trim cs).map fold := by
  have hcomp : (isTrimSpace ∘ fold) = isTrimSpace := by
    funext c
    exact hfold c
  simp only [trim, List.dropWhile_map, hcomp, ← List.map_reverse]

theorem leBytes_length (n x : Nat) : (leBytes n x).length = n := by
  induction n generalizing x with
  | zero => rfl
  | succ k ih => simp [leBytes, ih]

theorem leBytes_lt (n x : Nat) : ∀ b ∈ leBytes n x, b < 256 := by
  induction n generalizing x with
  | zero => simp [leBytes]
  | succ k ih =>
    intro b hb
    simp only [leBytes, List.mem_cons] at hb
    rcases hb with rfl | hb
    · exact Nat.mod_lt _ (by decide)
    · exact ih _ b hb

theorem md5_shape (msg : List Nat) : (md5 msg).length = 16 ∧ ∀ b ∈ md5 msg, b < 256 := by
  unfold md5
  constructor
  · simp [leBytes_length]
  · intro b hb
    simp only [List.mem_append] at hb
    rcases hb with ((hb | hb) | hb) | hb <;> exact leBytes_lt _ _ b hb

theorem hexDigit_mem (n : Nat) (h : n < 16) : hexDigit n ∈ "0123456789abcdef".toList := by
  interval_cases n <;> decide

theorem hex_shape (bytes : List Nat) (h : ∀ b ∈ bytes, b < 256) :
    (hex bytes).length = 2 * bytes.length ∧
      ∀ c ∈ (hex bytes).toList, c ∈ "0123456789abcdef".toList := by
  induction bytes with
  | nil => exact ⟨rfl, by simp [hex]⟩
  | cons b rest ih =>
    have hb : b < 256 := h b (List.mem_cons_self _ _)
    obtain ⟨hlen, hall⟩ := ih (fun x hx => h x (List.mem_cons_of_mem _ hx))
    constructor
    · simp only [hex, String.length, List.flatMap_cons, List.length_append, List.length_cons,
        List.length_nil] at hlen ⊢
      omega
    · intro c hc
      simp only [hex, String.toList, List.flatMap_cons, List.mem_append, List.mem_cons,
        List.not_mem_nil, or_false] at hc
      rcases hc with (rfl | rfl) | hc
      · exact hexDigit_mem _ (by omega)
      · exact hexDigit_mem _ (Nat.mod_lt _ (by decide))
      · exact hall c hc

theorem hexDigit_inj (m n : Nat) (hm : m < 16) (hn : n < 16) (h : hexDigit m = hexDigit n) :
    m = n := by
  interval_cases m <;> interval_cases n <;> first | rfl | exact absurd h (by decide)

theorem hex_cons (b : Nat) (rest : List Nat) :
    (hex (b :: rest)).toList = hexDigit (b / 16) :: hexDigit (b % 16) :: (hex rest).toList :=
  rfl

theorem hex_injective (xs ys : List Nat) (hx : ∀ b ∈ xs, b < 256) (hy : ∀ b ∈ ys, b < 256)
    (h : hex xs = hex ys) : xs = ys := by
  induction xs generalizing ys with
  | nil =>
    cases ys with
    | nil => rfl
    | cons y rest =>
      have hl := congrArg String.toList h
      rw [hex_cons] at hl
      exact absurd hl (by simp [hex])
  | cons x rest ih =>
    cases ys with
    | nil =>
      have hl := congrArg String.toList h
      rw [hex_cons] at hl
      exact absurd hl (by simp [hex])
    | cons y rest' =>
      have hl := congrArg String.toList h
      rw [hex_cons, hex_cons] at hl
      simp only [List.cons.injEq] at hl
      obtain ⟨h1, h2, h3⟩ := hl
      have hxb : x < 256 := hx x (List.mem_cons_self _ _)
      have hyb : y < 256 := hy y (List.mem_cons_self _ _)
      have e1 := hexDigit_inj _ _ (by omega) (by omega) h1
      have e2 := hexDigit_inj _ _ (Nat.mod_lt _ (by decide)) (Nat.mod_lt _ (by decide)) h2
      have hxy : x = y := by omega
      have hrest : hex rest = hex rest' := by
        have : (hex rest).data = (hex rest').data := h3
        cases hr : hex rest
        cases hr' : hex rest'
        simp_all
      rw [hxy, ih rest' (fun b hb => hx b (List.mem_cons_of_mem _ hb))
        (fun b hb => hy b (List.mem_cons_of_mem _ hb)) hrest]

/-- C9: for every email, whatever `toLowerCase` does to letters, `gravatar` is the prefix
`https://gravatar.com/avatar/` followed by the MD5 hash of the trimmed, lowercased email written
as 32 lowercase hexadecimal digits; emails that differ only in surrounding white space and in
what lowercasing erases give the same URL; for `dgdband@gmail.com`, which lowercasing leaves
as it is, the URL is `https://gravatar.com/avatar/d36785eb557425254e833b456ae10b73`. The hash is
that of RFC 1321: it gives the digests of the RFC's test suite, of texts of 55, 56, 64 and 200
bytes and of a text outside ASCII, and the hexadecimal writing loses nothing of the digest. -/
theorem gravatar_url (toLowerCase : List Char → List Char) (email : String) :
    gravatar toLowerCase email =
        "https://gravatar.com/avatar/" ++
          hex (md5 (utf8 (toLowerCase (trim email.toList)))) ∧
      (hex (md5 (utf8 (toLowerCase (trim email.toList))))).length = 32 ∧
      (∀ c ∈ (hex (md5 (utf8 (toLowerCase (trim email.toList))))).toList,
        c ∈ "0123456789abcdef".toList) ∧
      (∀ before other after : List Char,
        (∀ c ∈ before, isTrimSpace c = true) → (∀ c ∈ after, isTrimSpace c = true) →
        toLowerCase (trim other) = toLowerCase (trim email.toList) →
        gravatar toLowerCase (String.mk (before ++ other ++ after)) =
          gravatar toLowerCase email) ∧
      (∀ fold : Char → Char, (∀ c, isTrimSpace (fold c) = isTrimSpace c) →
        ∀ before other after : List Char,
        (∀ c ∈ before, isTrimSpace c = true) → (∀ c ∈ after, isTrimSpace c = true) →
        other.map fold = email.toList.map fold →
        gravatar (List.map fold) (String.mk (before ++ other ++ after)) =
          gravatar (List.map fold) email) ∧
      (toLowerCase "dgdband@gmail.com".toList = "dgdband@gmail.com".toList →
        gravatar toLowerCase "dgdband@gmail.com" =
          "https://gravatar.com/avatar/d36785eb557425254e833b456ae10b73") ∧
      (∀ xs ys : List Nat, (∀ b ∈ xs, b < 256) → (∀ b ∈ ys, b < 256) → hex xs = hex ys →
        xs = ys) ∧
      hex (md5 (utf8 "".toList)) = "d41d8cd98f00b204e9800998ecf8427e" ∧
      hex (md5 (utf8 "a".toList)) = "0cc175b9c0f1b6a831c399e269772661" ∧
      hex (md5 (utf8 "abc".toList)) = "900150983cd24fb0d6963f7d28e17f72" ∧
      hex (md5 (utf8 "message digest".toList)) = "f96b697d7cb7938d525a2f31aaf161d0" ∧
      hex (md5 (utf8 "abcdefghijklmnopqrstuvwxyz".toList)) =
        "c3fcd3d76192e4007dfb496cca67e13b" ∧
      hex (md5 (utf8
          "ABCDEFGHIJKLMNOPQRSTUVWXYZabcdefghijklmnopqrstuvwxyz0123456789".toList)) =
        "d174ab98d277d9f5a5611c2c9f419d9f" ∧
      hex (md5 (utf8 (List.replicate 8 "1234567890".toList).flatten)) =
        "57edf4a22be3c955ac49da2e2107b67a" ∧
      hex (md5 (utf8 (List.replicate 55 'a'))) = "ef1772b6dff9a122358552954ad0df65" ∧
      hex (md5 (utf8 (List.replicate 56 'a'))) = "3b0c8ac703f828b04c6c197006d17218" ∧
      hex (md5 (utf8 (List.replicate 64 'a'))) = "014842d480b571495a4a0363793f7367" ∧
      hex (md5 (utf8 (List.replicate 200 'x'))) = "30a83621ce5422fbdfdd539777458c78" ∧
      hex (md5 (utf8 "é€😀".toList)) = "3b07a39fef0ac5d7ef21575e7315a482" := by
  have hshape := md5_shape (utf8 (toLowerCase (trim email.toList)))
  have hhex := hex_shape _ hshape.2
  refine ⟨rfl, ?_, hhex.2, ?_, ?_, ?_, hex_injective, by decide, by decide, by decide,
    by decide, by decide, by decide, by decide, by decide, by decide, by decide, by decide,
    by decide⟩
  · rw [hhex.1, hshape.1]
  · intro before other after hb ha hcase
    have hnorm : normalizeEmail toLowerCase (String.mk (before ++ other ++ after)) =
        normalizeEmail toLowerCase email := by
      show toLowerCase (trim (before ++ other ++ after)) = toLowerCase (trim email.toList)
      rw [trim_padded before other after hb ha, hcase]
    simp only [gravatar, hnorm]
  · intro fold hfold before other after hb ha hcase
    have hnorm : normalizeEmail (List.map fold) (String.mk (before ++ other ++ after)) =
        normalizeEmail (List.map fold) email := by
      show (trim (before ++ other ++ after)).map fold = (trim email.toList).map fold
      rw [trim_padded before other after hb ha, ← trim_map_fold fold hfold, hcase,
        trim_map_fold fold hfold]
    simp only [gravatar, hnorm]
  · intro hfixed
    have htrim : trim "dgdband@gmail.com".toList = "dgdband@gmail.com".toList := by decide
    have hnorm : normalizeEmail toLowerCase "dgdband@gmail.com" =
        "dgdband@gmail.com".toList := by
      show toLowerCase (trim "dgdband@gmail.com".toList) = "dgdband@gmail.com".toList
      rw [htrim, hfixed]
    simp only [gravatar, hnorm]
    decide

/-- Witness of C9: with the folding of the letters `A`-`Z`, the test's email gives the test's
URL, and so does the same email written with capitals between a space and a line end. -/
theorem gravatar_url_witness :
    gravatar (List.map Char.toLower) "dgdband@gmail.com" =
        "https://gravatar.com/avatar/d36785eb557425254e833b456ae10b73" ∧
      gravatar (List.map Char.toLower)
          (String.mk ([' '] ++ "DGDband@Gmail.COM".toList ++ ['\n'])) =
        gravatar (List.map Char.toLower) "dgdband@gmail.com" ∧
      gravatar (List.map Char.toLower)
          (String.mk (['\t'] ++ "dgdband@gmail.com".toList ++ [' '])) =
        gravatar (List.map Char.toLower) "dgdband@gmail.com" :=
  ⟨(gravatar_url (List.map Char.toLower) "dgdband@gmail.com").2.2.2.2.2.1 (by decide),
   (gravatar_url (List.map Char.toLower) "dgdband@gmail.com").2.2.2.2.1 Char.toLower
      isTrimSpace_toLower [' '] "DGDband@Gmail.COM".toList ['\n']
      (by decide) (by decide) (by decide),
   (gravatar_url (List.map Char.toLower) "dgdband@gmail.com").2.2.2.1 ['\t']
      "dgdband@gmail.com".toList [' '] (by decide) (by decide) (by decide)⟩

end PltVideo
